import Mathlib

/-!
Shallow embedding of the Qubes GUI Wayland agent (files `src/qubes.rs` and
`src/shell.rs`): the window-id allocator, the inbound daemon-event translation
(configure, motion, keypress, button, keymap), the periodic title tick, and the
surface-commit damage path.  Machine integers are modelled as `Nat` (for `u32`
and `usize` values) and `Int` (for `i32` values), with wrap-around, saturation
and checked arithmetic written out explicitly wherever the source relies on it.
Rust panics and early aborts are modelled with `Option`.
-/

namespace QubesGui

/-- `2 ^ 31`, the first value outside the `i32` range. -/
def twoPow31 : Nat := 2147483648

/-- `2 ^ 32`, the `u32` modulus. -/
def twoPow32 : Nat := 4294967296

/-- Reinterpret a `u32` value as an `i32` (two's complement), as Rust's
`as i32` cast does. -/
def i32ofU32 (n : Nat) : Int :=
  if n < twoPow31 then (n : Int) else (n : Int) - (twoPow32 : Int)

/-- Reinterpret an `i32` value as a `u32` (two's complement), as Rust's
`as u32` cast does. -/
def u32ofI32 (z : Int) : Nat :=
  (z % (twoPow32 : Int)).toNat

/-- `u32::saturating_add`. -/
def satAddU32 (a b : Nat) : Nat :=
  min (a + b) (twoPow32 - 1)

/-! ## Window-id allocator (`QubesData::id`, qubes.rs lines 95-102) -/

/-- One call to `QubesData::id`: return the current `wid` and advance it by
one.  `checked_add` panics at `u32::MAX` (`"not yet implemented: wid
wrapping"`) and the `NonZeroU32` conversion panics at zero; both fatal
conditions are `none`. -/
def allocIdStep (wid : Nat) : Option (Nat × Nat) :=
  if wid = twoPow32 - 1 then none
  else if wid = 0 then none
  else some (wid, wid + 1)

/-- Run `n` successive calls of `QubesData::id` from allocator state `wid`,
collecting the returned ids in order; `none` if any call is fatal. -/
def allocIdSeq : Nat → Nat → Option (List Nat × Nat)
  | 0, wid => some ([], wid)
  | n + 1, wid =>
    match allocIdStep wid with
    | none => none
    | some (i, w) =>
      match allocIdSeq n w with
      | none => none
      | some (l, wEnd) => some (i :: l, wEnd)

/-- The allocator's initial state (qubes.rs line 304): `wid: 2`. -/
def widInit : Nat := 2

/-! ## Keymap handling (qubes.rs lines 507-524) -/

/-- Key state as delivered to the seat. -/
inductive KeyState where
  | pressed
  | released
deriving DecidableEq, Repr

/-- The state the `Keymap` arm decodes for index `i`, exactly as the source
computes it: `(new_keymap.keys[i / 32] >> (i % 8)) & 0x1`. -/
def keymapStateAt (keys : List Nat) (i : Nat) : KeyState :=
  if (keys.getD (i / 32) 0 >>> (i % 8)) &&& 1 = 1 then .pressed else .released

/-- The 256 deliveries of the `Keymap` arm, in order; the source computes one
serial and one timestamp before the loop, so all entries share them. -/
def keymapDeliveries (keys : List Nat) : List (Nat × KeyState) :=
  (List.range 256).map fun i => (i, keymapStateAt keys i)

/-- Bit `i` of the 256-bit key bitmap as the specification reads it:
bit `i % 32` of word `i / 32`. -/
def keymapSpecBit (keys : List Nat) (i : Nat) : Nat :=
  (keys.getD (i / 32) 0 >>> (i % 32)) &&& 1

/-! ## Periodic tick: title copy (qubes.rs lines 644-656) -/

/-- The title copy of the periodic tick:
`title_buf[..title.len().min(128)].copy_from_slice(title)` on a zeroed
128-byte buffer.  `copy_from_slice` panics (`none`) unless the source and the
destination slice have equal length, i.e. unless `title.len() ≤ 128`. -/
def tickTitleBuf (title : List Nat) : Option (List Nat) :=
  if min title.length 128 = title.length then
    some (title ++ List.replicate (128 - title.length) 0)
  else none

/-! ## Inbound drain loop: keypress and button arms (qubes.rs lines 337-614) -/

/-- An inbound daemon event as dispatched by the drain loop; `other` stands
for any arm that neither returns early nor `continue`s. -/
inductive DEvent where
  | keypress (ty keycode : Nat)
  | button (ty btn : Nat)
  | other
deriving DecidableEq, Repr

/-- An observable action of the drain loop on the seat. -/
inductive DAction where
  | keyInput (keycode : Nat) (state : KeyState)
  | wheel (horizontal : Bool) (amount : Int)
  | ptrButton (code : Nat) (state : KeyState)
  | handledOther
deriving DecidableEq, Repr

/-- The drain loop of the daemon-socket callback, restricted to the `Keypress`
and `Button` arms.  A keycode outside `[8, 0x108)` makes the callback `return`
(qubes.rs lines 423-428), dropping everything still queued; a strange key type
(lines 431-440) or button type (lines 462-468) `continue`s with the next
event; a button outside `1..=7` also `continue`s (line 498). -/
def drainEvents : List DEvent → List DAction
  | [] => []
  | .keypress ty kc :: rest =>
    if kc < 8 ∨ 0x108 ≤ kc then []
    else if ty = 2 then .keyInput (kc - 8) .pressed :: drainEvents rest
    else if ty = 3 then .keyInput (kc - 8) .released :: drainEvents rest
    else drainEvents rest
  | .button ty btn :: rest =>
    if ty = 4 ∨ ty = 5 then
      let st : KeyState := if ty = 4 then .pressed else .released
      if btn = 4 then .wheel false (-10) :: drainEvents rest
      else if btn = 5 then .wheel false 10 :: drainEvents rest
      else if btn = 6 then .wheel true (-10) :: drainEvents rest
      else if btn = 7 then .wheel true 10 :: drainEvents rest
      else if btn = 1 then .ptrButton 0x110 st :: drainEvents rest
      else if btn = 2 then .ptrButton 0x112 st :: drainEvents rest
      else if btn = 3 then .ptrButton 0x111 st :: drainEvents rest
      else drainEvents rest
    else drainEvents rest
  | .other :: rest => .handledOther :: drainEvents rest

/-! ## Configure processing (qubes.rs lines 116-244) -/

/-- A `qubes_gui::Rectangle`: `Coordinates { x, y }` and
`WindowSize { width, height }`, all `u32`. -/
structure Rect32 where
  x : Nat
  y : Nat
  w : Nat
  h : Nat
deriving DecidableEq, Repr

/-- A `qubes_gui::Configure` message body: rectangle plus `override_redirect`. -/
structure Configure32 where
  rect : Rect32
  overrideRedirect : Nat
deriving DecidableEq, Repr

/-- A message sent to the GUI daemon, restricted to the kinds the configure
path emits. -/
inductive QMsg where
  | configure (m : Configure32)
  | shmImage (r : Rect32)
  | windowDump
deriving DecidableEq, Repr

/-- The pending role state touched by `with_pending_state`: a toplevel's
`state.size` is an `Option<Size<i32, Logical>>`, a popup's
`state.geometry.size` is a plain `Size<i32, Logical>`. -/
inductive RolePending where
  | toplevel (size : Option (Int × Int))
  | popup (size : Int × Int)
deriving DecidableEq, Repr

/-- A registry value `QubesBackendData` (qubes.rs lines 85-92) together with
the pending state of its role and whether the underlying surface is alive
(`with_pending_state` returns `Err` on a dead window). -/
structure Entry where
  role : RolePending
  alive : Bool
  hasConfigured : Bool
  coords : Int × Int
deriving DecidableEq, Repr

/-- Result of `process_client_configure`: the messages sent to the daemon in
order, the size carried by the configure sent to the Wayland client (`none`
when no configure was sent), and the updated registry entry (`none` when the
window id was not in the registry). -/
structure ClientConfigureOut where
  daemonMsgs : List QMsg
  sentToClient : Option (Int × Int)
  entry : Option Entry
deriving DecidableEq, Repr

/-- `QubesData::process_client_configure` (qubes.rs lines 126-203).  An absent
window id returns silently.  Otherwise a `ShmImage` for the event's rectangle
and an echo of the `Configure` are sent to the daemon, the placement is
recorded, the role's pending size is set to the daemon size if
`has_configured` holds and to `(0, 0)` otherwise, and a configure is sent to
the client unless the pending size is unchanged while `has_configured`. -/
def processClientConfigure (entry : Option Entry) (m : Configure32) :
    ClientConfigureOut :=
  match entry with
  | none => ⟨[], none, none⟩
  | some e =>
    let msgs := [QMsg.shmImage m.rect, QMsg.configure m]
    let coords := (i32ofU32 m.rect.x, i32ofU32 m.rect.y)
    let newSize : Int × Int :=
      if e.hasConfigured then (i32ofU32 m.rect.w, i32ofU32 m.rect.h) else (0, 0)
    if e.alive then
      let (sizeUnchanged, role) :=
        match e.role with
        | .toplevel p => (some newSize == p, RolePending.toplevel (some newSize))
        | .popup g => (newSize == g, RolePending.popup newSize)
      if sizeUnchanged && e.hasConfigured then
        ⟨msgs, none, some { e with role, coords }⟩
      else
        ⟨msgs, some newSize,
          some { e with role, coords, hasConfigured := true }⟩
    else
      ⟨msgs, none, some { e with coords }⟩

/-- The self-window redraw state: `last_width` and `last_height`
(qubes.rs lines 40-41). -/
structure SelfState where
  lastWidth : Nat
  lastHeight : Nat
deriving DecidableEq, Repr

/-- `QubesData::process_self_configure` (qubes.rs lines 205-244): size
unchanged means no further message; otherwise the buffer is reallocated
(emitting a `WindowDump`) exactly when the wrapped `u32` products
`last_width * last_height` and `width * height` differ, followed by a second
`Configure` echo and a `ShmImage`. -/
def processSelfConfigure (st : SelfState) (m : Configure32) :
    SelfState × List QMsg :=
  if m.rect.w = st.lastWidth ∧ m.rect.h = st.lastHeight then (st, [])
  else
    let needDump :=
      (st.lastWidth * st.lastHeight) % twoPow32 ≠ (m.rect.w * m.rect.h) % twoPow32
    (⟨m.rect.w, m.rect.h⟩,
      (if needDump then [QMsg.windowDump] else []) ++
        [QMsg.configure m, QMsg.shmImage m.rect])

/-- `QubesData::process_configure` (qubes.rs lines 116-124): window 1 first
echoes the `Configure` and then runs the self-window path; any other window
runs the client path. -/
def processConfigure (st : SelfState) (entry : Option Entry) (window : Nat)
    (m : Configure32) : List QMsg × SelfState × ClientConfigureOut :=
  if window = 1 then
    let (st2, msgs) := processSelfConfigure st m
    (QMsg.configure m :: msgs, st2, ⟨[], none, entry⟩)
  else
    let out := processClientConfigure entry m
    (out.daemonMsgs, st, out)

/-- `true` when some `configure` in the list is followed (not necessarily
immediately) by some `shmImage`. -/
def existsConfigureThenShm : List QMsg → Bool
  | [] => false
  | .configure _ :: rest =>
    rest.any (fun m => match m with | .shmImage _ => true | _ => false) ||
      existsConfigureThenShm rest
  | _ :: rest => existsConfigureThenShm rest

/-! ## Motion coordinate translation (qubes.rs lines 358-398) -/

/-- One axis of the `Motion` arm's coordinate translation.  `ev` is the
daemon-reported `u32` coordinate, `placement` the window's stored `i32`
coordinate, `loc` the xdg geometry location on this axis (when a geometry is
present).  The source computes
`ev.saturating_add(placement.max(0) as u32).saturating_add(loc as u32)`:
the placement is clamped at zero, the geometry location is cast two's
complement. -/
def motionAxis (ev : Nat) (placement : Int) (loc : Option Int) : Nat :=
  let base := satAddU32 ev (max placement 0).toNat
  match loc with
  | some l => satAddU32 base (u32ofI32 l)
  | none => base

/-- The same axis translation as the specification words it: placement and
geometry location both clamped at zero before the saturating additions. -/
def motionAxisSpec (ev : Nat) (placement : Int) (loc : Option Int) : Nat :=
  let base := satAddU32 ev (max placement 0).toNat
  match loc with
  | some l => satAddU32 base (max l 0).toNat
  | none => base

/-- The coordinate pair delivered to the pointer for a `Motion` event against
a known window: both axes translated with the window's placement and the
surface's geometry location (absent when the surface declares no geometry). -/
def motionCoords (evx evy : Nat) (placement : Int × Int)
    (geomLoc : Option (Int × Int)) : Nat × Nat :=
  (motionAxis evx placement.1 (geomLoc.map Prod.fst),
   motionAxis evy placement.2 (geomLoc.map Prod.snd))

/-! ## Surface commit: `SurfaceData::update_buffer` (shell.rs lines 284-443) -/

/-- The untrusted `shm::BufferData` metadata of a client shm buffer (all
`i32` fields) together with the pool slice length (a `usize`). -/
structure ShmBuf where
  len : Nat
  offset : Int
  width : Int
  height : Int
  stride : Int
deriving DecidableEq, Repr

/-- A damage rectangle from `SurfaceAttributes`: surface-local (to be scaled
by `buffer_scale`) or buffer-local. -/
inductive Damage where
  | surface (x y w h : Int)
  | buffer (x y w h : Int)
deriving DecidableEq, Repr

/-- The two Wayland protocol errors the sanitizer can post. -/
inductive WlError where
  | invalidFd
  | invalidStride
deriving DecidableEq, Repr

/-- An observable action of a surface commit: a protocol error posted on the
buffer, a `WindowDump` for a freshly allocated shared framebuffer, a byte
copy into the shared framebuffer (absolute source byte range in the pool and
destination offset), or a `ShmImage` message with its four `u32` fields. -/
inductive CommitAction where
  | postError (e : WlError)
  | windowDump (w h : Int)
  | qbufWrite (srcLo srcHi dstOff : Nat)
  | shmImage (x y w h : Nat)
deriving DecidableEq, Repr

/-- The per-line copy loop `for i in 0..h` (shell.rs lines 408-433) over the
given line indices: each line writes `btw` bytes from the pool (starting at
`subStart + i * stride`) to the framebuffer at `4 * (lx + (i + ly) * width)`
and then emits one `ShmImage` whose width and height fields are **both**
`w as u32` (the source writes `height: w as u32`).  `none` models a panic of
a `try_into().unwrap()` or a slice bound. -/
def copyLines (slen subStart : Nat) (b : ShmBuf) (lx ly w1 : Int)
    (btw : Nat) : List Nat → Option (List CommitAction)
  | [] => some []
  | i :: rest =>
    let startOff := (i : Int) * b.stride
    if startOff < 0 then none
    else if slen < subStart + startOff.toNat + btw then none
    else
      let dst := 4 * (lx + ((i : Int) + ly) * b.width)
      if dst < 0 then none
      else
        (copyLines slen subStart b lx ly w1 btw rest).map fun acts =>
          .qbufWrite (subStart + startOff.toNat)
              (subStart + startOff.toNat + btw) dst.toNat ::
            .shmImage (u32ofI32 lx) (u32ofI32 ly) (u32ofI32 w1) (u32ofI32 w1) ::
            acts

/-- Process one damage rectangle (shell.rs lines 352-433): scale a
surface-local rectangle by `buffer_scale`, sanitize it (posting
`invalid_stride` and returning from the whole closure on violation), clip the
width to `width - loc.x` and the height to `min(size.w, height - loc.y)` (the
source reuses `untrusted_size.w` there), shift the copy source by a positive
geometry location while shrinking the extent, and run the per-line copy loop.
Returns the actions plus `true` when the closure returned early. -/
def processDamage (b : ShmBuf) (scale : Int) (geom : Option (Int × Int))
    (d : Damage) : Option (List CommitAction × Bool) :=
  let r :=
    match d with
    | .surface x y w h => (x * scale, y * scale, w * scale, h * scale)
    | .buffer x y w h => (x, y, w, h)
  let lx := r.1
  let ly := r.2.1
  let sw := r.2.2.1
  let sh := r.2.2.2
  if sw ≤ 0 ∨ sh ≤ 0 ∨ lx < 0 ∨ ly < 0 ∨ lx > b.width ∨ ly > b.height then
    some ([.postError .invalidStride], true)
  else
    let w0 := min sw (b.width - lx)
    let h0 := min sw (b.height - ly)
    let ws :=
      match geom with
      | some (gx, _) => if gx > 0 ∧ w0 > gx then (w0 - gx, lx + gx) else (w0, lx)
      | none => (w0, lx)
    let hs :=
      match geom with
      | some (_, gy) => if gy > 0 ∧ h0 > gy then (h0 - gy, ly + gy) else (h0, ly)
      | none => (h0, ly)
    let subStart := b.offset + 4 * ws.2 + hs.2 * b.stride
    if subStart < 0 ∨ (b.len : Int) < subStart then none
    else
      let btwI := 4 * ws.1
      if btwI < 0 then none
      else
        (copyLines b.len subStart.toNat b lx ly ws.1 btwI.toNat
            (List.range hs.1.toNat)).map fun acts => (acts, false)

/-- `for i in attrs.damage.drain(..)` (shell.rs line 352): process the damage
rectangles in order, stopping after one that posted an error. -/
def processDamageList (b : ShmBuf) (scale : Int) (geom : Option (Int × Int)) :
    List Damage → Option (List CommitAction)
  | [] => some []
  | d :: rest =>
    match processDamage b scale geom d with
    | none => none
    | some (acts, stopped) =>
      if stopped then some acts
      else (processDamageList b scale geom rest).map (acts ++ ·)

/-- The buffer-parameter sanitizer condition (shell.rs lines 324-333), with
the pool length already fitting `i32` as `lowLen`: `offset < 0`,
`height <= 0`, `width <= 0`, `stride / BYTES_PER_PIXEL < width`
(truncating `i32` division), `stride * height` overflowing `i32`
(`checked_mul` + `unwrap_or(true)`), or
`low_len < product || offset > low_len - product`. -/
def shmParamsViolated (lowLen : Int) (b : ShmBuf) : Prop :=
  b.offset < 0 ∨ b.height ≤ 0 ∨ b.width ≤ 0 ∨ Int.tdiv b.stride 4 < b.width ∨
    ¬(-(twoPow31 : Int) ≤ b.stride * b.height ∧
        b.stride * b.height < (twoPow31 : Int)) ∨
    lowLen < b.stride * b.height ∨ b.offset > lowLen - b.stride * b.height

instance (lowLen : Int) (b : ShmBuf) : Decidable (shmParamsViolated lowLen b) := by
  unfold shmParamsViolated; infer_instance

/-- A `BufferAssignment` taken from the commit: a new shm buffer (whose
`buffer_dimensions` are its metadata width and height) or a removal. -/
inductive BufAssign where
  | newBuffer (shm : ShmBuf)
  | removed
deriving DecidableEq, Repr

/-- `SurfaceData::process_new_buffers` (shell.rs lines 257-282): a new buffer
records its dimensions and allocates and dumps a fresh shared framebuffer
(the `assert!(w > 0 && h > 0)` panic is `none`); a removal clears the stored
buffer.  Returns the emitted actions and the stored buffer afterwards. -/
def processNewBuffers (stored : Option ShmBuf) :
    Option BufAssign → Option (List CommitAction × Option ShmBuf)
  | some (.newBuffer shm) =>
    if shm.width > 0 ∧ shm.height > 0 then
      some ([.windowDump shm.width shm.height], some shm)
    else none
  | some .removed => some ([], none)
  | none => some ([], stored)

/-- `SurfaceData::update_buffer` (shell.rs lines 284-443): process a possible
buffer assignment; then, when the damage list is nonempty and a buffer is
attached, sanitize the shm parameters — posting `invalid_fd` when the pool
length does not fit `i32` and `invalid_stride` on any other violation, either
aborting the commit — and otherwise process the damage rectangles.  `scale`
is `self.buffer_scale` at damage time (set from the commit when a new buffer
was attached).  Returns the actions emitted in order and the stored buffer
after the commit; `none` is a panic. -/
def updateBuffer (stored : Option ShmBuf) (assign : Option BufAssign)
    (damage : List Damage) (scale : Int) (geom : Option (Int × Int)) :
    Option (List CommitAction × Option ShmBuf) :=
  match processNewBuffers stored assign with
  | none => none
  | some (pre, buf) =>
    if damage.isEmpty then some (pre, buf)
    else
      match buf with
      | none => some (pre, none)
      | some b =>
        if twoPow31 - 1 < b.len then
          some (pre ++ [.postError .invalidFd], buf)
        else if shmParamsViolated (b.len : Int) b then
          some (pre ++ [.postError .invalidStride], buf)
        else
          (processDamageList b scale geom damage).map fun acts =>
            (pre ++ acts, buf)

/-- A `ShmImage` action whose rectangle lies inside `[0, bw) × [0, bh)`;
every other action counts as inside. -/
def shmImageInside (bw bh : Nat) : CommitAction → Bool
  | .shmImage x y w h => decide (x + w ≤ bw) && decide (y + h ≤ bh)
  | _ => true

/-- Actions that put a message on the Qubes daemon socket. -/
def isQubesMessage : CommitAction → Bool
  | .windowDump _ _ => true
  | .shmImage _ _ _ _ => true
  | _ => false

/-! ## Theorems -/

/-- C1: the code decodes the key state of index `i` from
`(keys[i / 32] >> (i % 8)) & 1` rather than from bit `i % 32` of word
`i / 32`.  With `keys[0] = 0x100` (only bit 8 of the 256-bit bitmap set) the
handler delivers keycode 8 as `Released`, while the claim requires `Pressed`
for a set bit. -/
theorem C1_keymap_bit_mismatch :
    keymapSpecBit [256, 0, 0, 0, 0, 0, 0, 0] 8 = 1 ∧
    keymapStateAt [256, 0, 0, 0, 0, 0, 0, 0] 8 = KeyState.released ∧
    (8, KeyState.released) ∈ keymapDeliveries [256, 0, 0, 0, 0, 0, 0, 0] := by
  decide

/-- C3: against a 10×2 buffer (offset 0, stride 40, pool length 80) and the
single buffer-local damage rectangle (0, 0, 5, 1), the commit emits
`ShmImage` messages whose rectangle is (0, 0, 5, 5): the height field is the
clipped damage width rather than the clipped damage height 1, and the
rectangle leaves `[0, 10) × [0, 2)`. -/
theorem C3_shmimage_rectangle_bug :
    updateBuffer (some ⟨80, 0, 10, 2, 40⟩) none [Damage.buffer 0 0 5 1] 1 none =
      some ([CommitAction.qbufWrite 0 20 0, CommitAction.shmImage 0 0 5 5,
             CommitAction.qbufWrite 40 60 40, CommitAction.shmImage 0 0 5 5],
        some ⟨80, 0, 10, 2, 40⟩) ∧
    shmImageInside 10 2 (CommitAction.shmImage 0 0 5 5) = false ∧
    (5 : Nat) ≠ min 1 2 := by
  decide

set_option maxRecDepth 4000 in
/-- C9: the tick's title copy
`title_buf[..title.len().min(128)].copy_from_slice(title)` requires equal
source and destination lengths, so a 129-byte title panics instead of being
truncated, while a 100-byte title is copied into the zero-padded 128-byte
buffer. -/
theorem C9_title_copy_mismatch :
    tickTitleBuf (List.replicate 129 65) = none ∧
    tickTitleBuf (List.replicate 100 65) =
      some (List.replicate 100 65 ++ List.replicate 28 0) ∧
    (tickTitleBuf (List.replicate 100 65)).map List.length = some 128 := by
  decide

/-- C10: a `Keypress` whose keycode lies outside `[8, 0x108)` makes the
drain loop return, leaving every queued event unprocessed; a `Keypress` whose
type is neither 2 nor 3, and a `Button` whose type is neither 4 nor 5, skip
only that one event and the loop continues with the rest. -/
theorem C10_drain_loop (rest : List DEvent) (ty ty2 bty kcBad kcGood btn : Nat)
    (hbad : kcBad < 8 ∨ 0x108 ≤ kcBad)
    (hlo : 8 ≤ kcGood) (hhi : kcGood < 0x108)
    (hty2 : ty2 ≠ 2) (hty3 : ty2 ≠ 3)
    (hbty4 : bty ≠ 4) (hbty5 : bty ≠ 5) :
    drainEvents (DEvent.keypress ty kcBad :: rest) = [] ∧
    drainEvents (DEvent.keypress ty2 kcGood :: rest) = drainEvents rest ∧
    drainEvents (DEvent.button bty btn :: rest) = drainEvents rest := by
  refine ⟨?_, ?_, ?_⟩
  · simp only [drainEvents]
    rw [if_pos hbad]
  · simp only [drainEvents]
    rw [if_neg (by omega), if_neg hty2, if_neg hty3]
  · simp only [drainEvents]
    rw [if_neg (by tauto)]

/-- C10 witness: the drain loop at a concrete queue. -/
theorem C10_drain_loop_witness :
    drainEvents (DEvent.keypress 2 300 :: [DEvent.other]) = [] ∧
    drainEvents (DEvent.keypress 7 30 :: [DEvent.other]) =
      drainEvents [DEvent.other] ∧
    drainEvents (DEvent.button 9 1 :: [DEvent.other]) =
      drainEvents [DEvent.other] :=
  C10_drain_loop [DEvent.other] 2 7 9 300 30 1 (by omega) (by omega) (by omega)
    (by omega) (by omega) (by omega) (by omega)

/-- C2 counterexample: for a client window present in the registry, the
daemon trace of a `Configure` contains the echoed `Configure` and the
`ShmImage`, but no `Configure` precedes a `ShmImage` — the echo follows the
image, so the claimed order is violated. -/
theorem C2_counterexample :
    (processClientConfigure
        (some ⟨RolePending.toplevel none, true, false, (0, 0)⟩)
        ⟨⟨10, 20, 800, 600⟩, 0⟩).daemonMsgs =
      [QMsg.shmImage ⟨10, 20, 800, 600⟩,
       QMsg.configure ⟨⟨10, 20, 800, 600⟩, 0⟩] ∧
    existsConfigureThenShm
      (processClientConfigure
        (some ⟨RolePending.toplevel none, true, false, (0, 0)⟩)
        ⟨⟨10, 20, 800, 600⟩, 0⟩).daemonMsgs = false := by
  decide

/-- C2 (amended): for a client window present in the registry, exactly one
`Configure` with the same rectangle and `override_redirect` is echoed, sent
immediately **after** the `ShmImage` for that rectangle; for the self-window
id 1, the echo precedes any `ShmImage`, once with no `ShmImage` when the size
is unchanged, and twice (around the optional `WindowDump`) followed by the
`ShmImage` when it changed. -/
theorem C2_configure_echo (e : Entry) (m : Configure32) (st : SelfState) :
    (processClientConfigure (some e) m).daemonMsgs =
      [QMsg.shmImage m.rect, QMsg.configure m] ∧
    existsConfigureThenShm (processClientConfigure (some e) m).daemonMsgs =
      false ∧
    (processConfigure st none 1 m).1 =
      (if m.rect.w = st.lastWidth ∧ m.rect.h = st.lastHeight then
        [QMsg.configure m]
      else
        QMsg.configure m ::
          ((if (st.lastWidth * st.lastHeight) % twoPow32 ≠
              (m.rect.w * m.rect.h) % twoPow32 then
            [QMsg.windowDump] else []) ++
            [QMsg.configure m, QMsg.shmImage m.rect])) := by
  have h1 : (processClientConfigure (some e) m).daemonMsgs =
      [QMsg.shmImage m.rect, QMsg.configure m] := by
    obtain ⟨role, alive, hc, co⟩ := e
    cases alive <;> cases role <;>
      simp only [processClientConfigure] <;> (repeat' split) <;> rfl
  have h2 : (processConfigure st none 1 m).1 =
      QMsg.configure m :: (processSelfConfigure st m).2 := rfl
  refine ⟨h1, ?_, ?_⟩
  · rw [h1]
    simp [existsConfigureThenShm]
  · rw [h2]
    by_cases hC : m.rect.w = st.lastWidth ∧ m.rect.h = st.lastHeight
    · simp [processSelfConfigure, hC]
    · simp only [processSelfConfigure, if_neg hC]

/-- C4 counterexample: a commit that attaches a fresh 1×4 buffer whose
`stride * height` overflows `i32` and carries damage posts the
`invalid_stride` error, but a Qubes message (the new framebuffer's
`WindowDump`) has already been emitted for that commit. -/
theorem C4_counterexample :
    updateBuffer none (some (BufAssign.newBuffer ⟨16, 0, 1, 4, 1073741824⟩))
        [Damage.buffer 0 0 1 1] 1 none =
      some ([CommitAction.windowDump 1 4,
             CommitAction.postError WlError.invalidStride],
        some ⟨16, 0, 1, 4, 1073741824⟩) ∧
    ([CommitAction.windowDump 1 4,
      CommitAction.postError WlError.invalidStride].any isQubesMessage) =
      true := by
  decide

/-- C4 (amended): a commit with a nonempty damage list against an attached
buffer whose shm parameters violate the sanitization conditions posts exactly
one protocol error — `invalid_fd` when the pool length does not fit `i32`,
`invalid_stride` otherwise — and emits no `ShmImage`; it emits no Qubes
message at all when it attaches no new buffer, while a commit that also
attaches a (positive-dimension) buffer has already sent exactly that
buffer's `WindowDump` before the error. -/
theorem C4_sanitize_abort (b shm : ShmBuf) (ds : List Damage) (scale : Int)
    (geom : Option (Int × Int)) (stored : Option ShmBuf) (hne : ds ≠ [])
    (hviolB : twoPow31 - 1 < b.len ∨ shmParamsViolated (b.len : Int) b)
    (hviolS : twoPow31 - 1 < shm.len ∨ shmParamsViolated (shm.len : Int) shm)
    (hw : 0 < shm.width) (hh : 0 < shm.height) :
    updateBuffer (some b) none ds scale geom =
      some ([CommitAction.postError
          (if twoPow31 - 1 < b.len then WlError.invalidFd
            else WlError.invalidStride)], some b) ∧
    updateBuffer stored (some (BufAssign.newBuffer shm)) ds scale geom =
      some ([CommitAction.windowDump shm.width shm.height,
          CommitAction.postError
            (if twoPow31 - 1 < shm.len then WlError.invalidFd
              else WlError.invalidStride)], some shm) := by
  have hds : ds.isEmpty = false := by
    cases ds with
    | nil => exact absurd rfl hne
    | cons d t => rfl
  constructor
  · simp only [updateBuffer, processNewBuffers, hds, Bool.false_eq_true,
      if_false]
    by_cases hfd : twoPow31 - 1 < b.len
    · rw [if_pos hfd, if_pos hfd]; rfl
    · rw [if_neg hfd, if_neg hfd,
        if_pos (hviolB.resolve_left hfd)]
      rfl
  · simp only [updateBuffer, processNewBuffers, hds, Bool.false_eq_true,
      if_false, if_pos (And.intro hw hh)]
    by_cases hfd : twoPow31 - 1 < shm.len
    · rw [if_pos hfd, if_pos hfd]; rfl
    · rw [if_neg hfd, if_neg hfd,
        if_pos (hviolS.resolve_left hfd)]
      rfl

/-- C4 witness: the amended theorem at a concrete overflowing buffer. -/
theorem C4_sanitize_abort_witness :
    updateBuffer (some ⟨16, 0, 1, 4, 1073741824⟩) none
        [Damage.buffer 0 0 1 1] 1 none =
      some ([CommitAction.postError
          (if twoPow31 - 1 < (16 : Nat) then WlError.invalidFd
            else WlError.invalidStride)], some ⟨16, 0, 1, 4, 1073741824⟩) ∧
    updateBuffer none
        (some (BufAssign.newBuffer ⟨2147483648, 0, 1, 1, 4⟩))
        [Damage.buffer 0 0 1 1] 1 none =
      some ([CommitAction.windowDump 1 1,
          CommitAction.postError
            (if twoPow31 - 1 < (2147483648 : Nat) then WlError.invalidFd
              else WlError.invalidStride)], some ⟨2147483648, 0, 1, 1, 4⟩) :=
  C4_sanitize_abort ⟨16, 0, 1, 4, 1073741824⟩ ⟨2147483648, 0, 1, 1, 4⟩
    [Damage.buffer 0 0 1 1] 1 none none (by decide)
    (Or.inr (by decide)) (Or.inl (by decide)) (by decide) (by decide)

/-- Closed form of the allocator: while no overflow occurs, `n` calls from a
nonzero state `wid` return `wid, wid + 1, …, wid + n - 1`. -/
theorem allocIdSeq_eq (n : Nat) :
    ∀ wid : Nat, 0 < wid → wid + n < twoPow32 →
      allocIdSeq n wid = some ((List.range n).map (wid + ·), wid + n) := by
  induction n with
  | zero => intro wid h0 h; simp [allocIdSeq]
  | succ k ih =>
    intro wid h0 h
    have hstep : allocIdStep wid = some (wid, wid + 1) := by
      unfold allocIdStep
      rw [if_neg (by omega), if_neg (by omega)]
    have hrec := ih (wid + 1) (by omega) (by omega)
    have hlist : (List.range (k + 1)).map (wid + ·) =
        wid :: (List.range k).map ((wid + 1) + ·) := by
      rw [List.range_succ_eq_map, List.map_cons, List.map_map]
      refine congrArg₂ _ (by omega) ?_
      refine List.map_congr_left fun i _ => ?_
      simp only [Function.comp]
      omega
    have harith : wid + 1 + k = wid + (k + 1) := by omega
    simp only [allocIdSeq, hstep, hrec, hlist, harith]

/-- When the allocator state reaches `u32::MAX`, the next call is fatal. -/
theorem allocIdSeq_overflow (n : Nat) :
    ∀ wid : Nat, 0 < wid → wid + n = twoPow32 - 1 →
      allocIdSeq (n + 1) wid = none := by
  have h4 : twoPow32 = 4294967296 := rfl
  induction n with
  | zero =>
    intro wid h0 h
    simp only [allocIdSeq, allocIdStep]
    rw [if_pos (by omega)]
  | succ k ih =>
    intro wid h0 h
    have hstep : allocIdStep wid = some (wid, wid + 1) := by
      unfold allocIdStep
      rw [if_neg (by omega), if_neg (by omega)]
    have hrec := ih (wid + 1) (by omega) (by omega)
    show (match allocIdStep wid with
      | none => none
      | some (i, w) =>
        match allocIdSeq (k + 1) w with
        | none => none
        | some (l, wEnd) => some (i :: l, wEnd)) = none
    rw [hstep]
    show (match allocIdSeq (k + 1) (wid + 1) with
      | none => none
      | some (l, wEnd) => some (wid :: l, wEnd)) = none
    rw [hrec]

/-- C5: from the initial state, the ids returned by successive
`QubesData::id` calls are `2, 3, …`: strictly increasing, all nonzero, never
repeated, beginning at 2, and the call made once the id space is exhausted is
fatal (`none`) rather than a wrap-around. -/
theorem C5_id_allocator (n : Nat) (hn : n ≤ twoPow32 - 3) :
    ∃ ids wEnd, allocIdSeq n widInit = some (ids, wEnd) ∧
      ids.Pairwise (· < ·) ∧ (∀ i ∈ ids, i ≠ 0) ∧ ids.Nodup ∧
      (0 < n → ids.head? = some 2) ∧
      allocIdSeq (twoPow32 - 2) widInit = none := by
  have h4 : twoPow32 = 4294967296 := rfl
  have hpair : ((List.range n).map (2 + ·)).Pairwise (· < ·) := by
    refine List.Pairwise.map _ (fun a b hab => ?_) (List.pairwise_lt_range n)
    omega
  refine ⟨(List.range n).map (2 + ·), 2 + n, ?_, hpair, ?_, ?_, ?_, ?_⟩
  · exact allocIdSeq_eq n 2 (by omega) (by omega)
  · intro i hi
    obtain ⟨j, _, rfl⟩ := List.mem_map.mp hi
    omega
  · exact List.Pairwise.imp (fun hab => Nat.ne_of_lt hab) hpair
  · intro hpos
    obtain ⟨m, rfl⟩ := Nat.exists_eq_succ_of_ne_zero (Nat.pos_iff_ne_zero.mp hpos)
    rw [List.range_succ_eq_map]
    rfl
  · have hov := allocIdSeq_overflow (twoPow32 - 3) widInit
      (by norm_num [widInit]) (by simp only [widInit]; omega)
    have heq : twoPow32 - 3 + 1 = twoPow32 - 2 := by omega
    rw [heq] at hov
    exact hov

/-- C5 witness: three calls from the initial state return 2, 3, 4. -/
theorem C5_id_allocator_witness :
    (3 ≤ twoPow32 - 3) ∧
    ∃ ids wEnd, allocIdSeq 3 widInit = some (ids, wEnd) ∧
      ids.Pairwise (· < ·) ∧ (∀ i ∈ ids, i ≠ 0) ∧ ids.Nodup ∧
      (0 < 3 → ids.head? = some 2) ∧
      allocIdSeq (twoPow32 - 2) widInit = none :=
  ⟨by norm_num [twoPow32], C5_id_allocator 3 (by norm_num [twoPow32])⟩

/-- A `u32` value below `2^31` is unchanged by the `as i32` cast. -/
theorem i32ofU32_of_lt (n : Nat) (h : n < twoPow31) : i32ofU32 n = (n : Int) := by
  simp [i32ofU32, h]

/-- C6: for a live client window, the configure sent while `has_configured`
is false carries pending size `(0, 0)` regardless of the daemon size, every
configure sent while it is true carries the daemon-advertised size, and
sending a configure leaves the flag true. -/
theorem C6_first_configure_zero (e : Entry) (m : Configure32)
    (halive : e.alive = true) (hw : m.rect.w < twoPow31)
    (hh : m.rect.h < twoPow31) :
    (e.hasConfigured = false →
      (processClientConfigure (some e) m).sentToClient = some (0, 0)) ∧
    (e.hasConfigured = true →
      ∀ s ∈ (processClientConfigure (some e) m).sentToClient,
        s = ((m.rect.w : Int), (m.rect.h : Int))) ∧
    ((processClientConfigure (some e) m).sentToClient.isSome = true →
      ∀ e2 ∈ (processClientConfigure (some e) m).entry,
        e2.hasConfigured = true) := by
  obtain ⟨role, alive, hc, co⟩ := e
  subst halive
  cases hc <;> cases role <;>
    simp only [processClientConfigure, i32ofU32_of_lt m.rect.w hw,
      i32ofU32_of_lt m.rect.h hh] <;>
    (repeat' split) <;>
    simp_all

/-- C6 witness: a fresh live toplevel entry receiving an 800×600 configure. -/
theorem C6_first_configure_zero_witness :
    let e : Entry := ⟨RolePending.toplevel none, true, false, (0, 0)⟩
    let m : Configure32 := ⟨⟨10, 20, 800, 600⟩, 0⟩
    (e.hasConfigured = false →
      (processClientConfigure (some e) m).sentToClient = some (0, 0)) ∧
    (e.hasConfigured = true →
      ∀ s ∈ (processClientConfigure (some e) m).sentToClient,
        s = ((m.rect.w : Int), (m.rect.h : Int))) ∧
    ((processClientConfigure (some e) m).sentToClient.isSome = true →
      ∀ e2 ∈ (processClientConfigure (some e) m).entry,
        e2.hasConfigured = true) :=
  C6_first_configure_zero ⟨RolePending.toplevel none, true, false, (0, 0)⟩
    ⟨⟨10, 20, 800, 600⟩, 0⟩ rfl (by norm_num [twoPow31])
    (by norm_num [twoPow31])

/-- C7: a daemon configure whose size equals the pending size already
recorded for the role of a live, already-configured window sends no configure
to the client and leaves `has_configured` true. -/
theorem C7_unchanged_size_suppressed (e : Entry) (m : Configure32)
    (halive : e.alive = true) (hconf : e.hasConfigured = true)
    (hpend : e.role =
        RolePending.toplevel (some (i32ofU32 m.rect.w, i32ofU32 m.rect.h)) ∨
      e.role = RolePending.popup (i32ofU32 m.rect.w, i32ofU32 m.rect.h)) :
    (processClientConfigure (some e) m).sentToClient = none ∧
    ∀ e2 ∈ (processClientConfigure (some e) m).entry,
      e2.hasConfigured = true := by
  obtain ⟨role, alive, hc, co⟩ := e
  subst halive
  simp only at hconf
  subst hconf
  rcases hpend with h | h <;> (simp only at h; subst h) <;>
    simp [processClientConfigure]

/-- C7 witness: a live configured toplevel with pending size 800×600
receiving the same size again. -/
theorem C7_unchanged_size_suppressed_witness :
    let e : Entry := ⟨RolePending.toplevel (some (800, 600)), true, true, (0, 0)⟩
    let m : Configure32 := ⟨⟨10, 20, 800, 600⟩, 0⟩
    (processClientConfigure (some e) m).sentToClient = none ∧
    ∀ e2 ∈ (processClientConfigure (some e) m).entry,
      e2.hasConfigured = true :=
  C7_unchanged_size_suppressed
    ⟨RolePending.toplevel (some (800, 600)), true, true, (0, 0)⟩
    ⟨⟨10, 20, 800, 600⟩, 0⟩ rfl rfl (Or.inl (by decide))

/-- C8 counterexample: with daemon coordinates `(5, 7)`, placement `(0, 0)`
and geometry location `(-1, 3)`, the code delivers x-coordinate
`u32::MAX` (the negative location is cast two's complement, saturating the
sum), while clamping the location at zero as the claim states would deliver
5. -/
theorem C8_counterexample :
    motionCoords 5 7 (0, 0) (some (-1, 3)) = (4294967295, 10) ∧
    motionAxisSpec 5 0 (some (-1)) = 5 ∧
    motionAxis 5 0 (some (-1)) ≠ motionAxisSpec 5 0 (some (-1)) := by
  decide

/-- A nonnegative `i32` value below `2^32` is sent to its `Nat` value by the
`as u32` cast. -/
theorem u32ofI32_of_nonneg (z : Int) (h0 : 0 ≤ z) (h : z < (twoPow32 : Nat)) :
    u32ofI32 z = z.toNat := by
  unfold u32ofI32
  rw [Int.emod_eq_of_lt h0 (by exact_mod_cast h)]

/-- C8 (amended): the delivered coordinates are the daemon coordinates plus
the placement clamped at zero plus the geometry location, each addition
saturating at `u32::MAX`, provided the geometry location is nonnegative (it
is cast `as u32` without clamping, so the code and the clamping
specification agree exactly there); without a geometry only the clamped
placement is added. -/
theorem C8_motion_translation (evx evy : Nat) (px py lx ly : Int)
    (hlx0 : 0 ≤ lx) (hlx : lx < ((twoPow31 : Nat) : Int))
    (hly0 : 0 ≤ ly) (hly : ly < ((twoPow31 : Nat) : Int)) :
    motionCoords evx evy (px, py) (some (lx, ly)) =
      (satAddU32 (satAddU32 evx (max px 0).toNat) lx.toNat,
       satAddU32 (satAddU32 evy (max py 0).toNat) ly.toNat) ∧
    motionAxis evx px (some lx) = motionAxisSpec evx px (some lx) ∧
    motionCoords evx evy (px, py) none =
      (satAddU32 evx (max px 0).toNat, satAddU32 evy (max py 0).toNat) := by
  have hb : ((twoPow31 : Nat) : Int) < ((twoPow32 : Nat) : Int) := by
    norm_num [twoPow31, twoPow32]
  have hx := u32ofI32_of_nonneg lx hlx0 (lt_trans hlx hb)
  have hy := u32ofI32_of_nonneg ly hly0 (lt_trans hly hb)
  refine ⟨?_, ?_, rfl⟩
  · simp [motionCoords, motionAxis, hx, hy]
  · simp [motionAxis, motionAxisSpec, hx, max_eq_left hlx0]

/-- C8 witness: the amended translation at coordinates `(5, 7)`, placement
`(-2, 4)` and geometry location `(1, 3)`. -/
theorem C8_motion_translation_witness :
    motionCoords 5 7 ((-2 : Int), (4 : Int)) (some ((1 : Int), (3 : Int))) =
      (satAddU32 (satAddU32 5 (max (-2 : Int) 0).toNat) (1 : Int).toNat,
       satAddU32 (satAddU32 7 (max (4 : Int) 0).toNat) (3 : Int).toNat) ∧
    motionAxis 5 (-2) (some 1) = motionAxisSpec 5 (-2) (some 1) ∧
    motionCoords 5 7 ((-2 : Int), (4 : Int)) none =
      (satAddU32 5 (max (-2 : Int) 0).toNat, satAddU32 7 (max (4 : Int) 0).toNat) :=
  C8_motion_translation 5 7 (-2) 4 1 3 (by norm_num)
    (by norm_num [twoPow31]) (by norm_num) (by norm_num [twoPow31])

end QubesGui
